import Mathlib

/-!
Shallow embedding of the layout/composition engine of a character-grid
widget toolkit (`leptos-tui`): the geometry types `Size`, `Limits`, `XY`,
the ordering on `Size`, the buffered draw surface (`write_styled`,
`shrink`, `shrink_centered`), and the layout functions of the `Text` and
`Center` widgets.  Dimensions are `u16` in the source; they are embedded
as `Nat`, and every arithmetic operation that could overflow or underflow
`u16` is noted at its definition.  Text is embedded as `List Char`; all
inputs considered are ASCII, so byte indexing in the source coincides
with character indexing here.
-/

namespace LeptosTui

/-- `Size { width, height }` from `src/lib.rs` (`u16` fields, embedded as `Nat`). -/
structure Size where
  width : Nat
  height : Nat
deriving DecidableEq

/-- `Size::linear_length`: `self.width as usize * self.height as usize`
(`src/lib.rs`).  The product of two `u16` values fits in `usize`, so plain
`Nat` multiplication is exact. -/
def Size.linear_length (s : Size) : Nat :=
  s.width * s.height

/-- Rust's `Ord::cmp` on `usize`, used by `linear_length().cmp(&...)` in
the `PartialOrd for Size` impl (`src/lib.rs`). -/
def cmpNat (a b : Nat) : Ordering :=
  if a < b then .lt else if a = b then .eq else .gt

/-- Rust's `a <= b` on `Size`, derived from `PartialOrd for Size`
(`src/lib.rs`): `partial_cmp` returns `Some(linear_length.cmp(...))`, and
`le` holds when that is `Less` or `Equal`.  Note this compares AREAS. -/
def Size.le (a b : Size) : Bool :=
  match cmpNat a.linear_length b.linear_length with
  | .gt => false
  | _ => true

/-- Rust's `a >= b` on `Size`, derived from `PartialOrd for Size`
(`src/lib.rs`): `ge` holds when `partial_cmp` is `Greater` or `Equal`. -/
def Size.ge (a b : Size) : Bool :=
  match cmpNat a.linear_length b.linear_length with
  | .lt => false
  | _ => true

/-- `Ord for Size` (`src/lib.rs`) has body `self.cmp(other)` — the very
method being defined, called on unchanged arguments.  The recursion is
embedded with explicit fuel: `cmpFuel n` allows `n` unfoldings of the
body, and each unfolding performs the recursive call with the same
arguments; a result of `none` means the computation did not finish within
`n` unfoldings. -/
def Size.cmpFuel : Nat → Size → Size → Option Ordering
  | 0, _, _ => none
  | Nat.succ n, a, b => Size.cmpFuel n a b

/-- `Limits` from `src/lib.rs` (`u16` fields, embedded as `Nat`). -/
structure Limits where
  min_width : Nat
  max_width : Nat
  min_height : Nat
  max_height : Nat
deriving DecidableEq

/-- `Limits::max_size` (`src/lib.rs`). -/
def Limits.max_size (l : Limits) : Size :=
  ⟨l.max_width, l.max_height⟩

/-- `Limits::min_size` (`src/lib.rs`). -/
def Limits.min_size (l : Limits) : Size :=
  ⟨l.min_width, l.min_height⟩

/-- `Limits::is_size_within_limits` (`src/lib.rs`):
`max_size >= size && min_size <= size`, where `>=`/`<=` are the
`PartialOrd for Size` comparisons (area comparisons). -/
def Limits.is_size_within_limits (l : Limits) (size : Size) : Bool :=
  Size.ge l.max_size size && Size.le l.min_size size

/-- `Limits::strict` (`src/lib.rs`): pins an exact size, `min = max` on
both axes. -/
def Limits.strict (width height : Nat) : Limits :=
  ⟨width, width, height, height⟩

/-- The spec's description of `is_size_within_limits`, stated for
comparison with the source definition: size componentwise `≤` the max
size and componentwise `≥` the min size (two independent per-axis
checks). -/
def Limits.is_size_within_limits_componentwise (l : Limits) (size : Size) : Bool :=
  decide (size.width ≤ l.max_width) && decide (size.height ≤ l.max_height)
    && decide (l.min_width ≤ size.width) && decide (l.min_height ≤ size.height)

/-- `XY { x, y }` from `src/lib.rs` (`u16` fields, embedded as `Nat`). -/
structure XY where
  x : Nat
  y : Nat
deriving DecidableEq

/-- Componentwise addition of `XY`, from the `derive_more::Add` derive on
`XY` (`src/lib.rs`).  The source `u16` addition can overflow only for
coordinates near 2^16, which never arise under the in-bounds hypotheses
used below. -/
def XY.add (a b : XY) : XY :=
  ⟨a.x + b.x, a.y + b.y⟩

/-- Outcome of `BufDrawSurface::write_styled` (`src/surface.rs`).
`nothing` models an early `return` (no terminal commands queued);
`panicked` models the panic raised by the out-of-range slice
`&first_line[0..n]`; `emit pos s` models queueing `MoveTo(pos.x, pos.y)`
followed by `Print(s)`. -/
inductive WriteResult where
  | nothing
  | panicked
  | emit (pos : XY) (data : List Char)
deriving DecidableEq

/-- `data.lines().next().unwrap()` for nonempty `data`: the first line,
i.e. the characters before the first newline.  (The source inputs contain
no carriage returns, so `\r\n` handling is irrelevant.) -/
def firstLine (data : List Char) : List Char :=
  data.takeWhile (fun c => c ≠ '\n')

/-- `BufDrawSurface::write_styled` (`src/surface.rs`), restricted to the
unstyled path used by `write` (all three style options `None`): styling
only wraps the already-clipped data in escape sequences after the steps
modelled here, so it affects neither the early returns, the panic, nor
the clipping.  Steps, in source order: return if `data` is empty; return
if `at.y > size.height`; return if `at.x > size.width`; slice the first
line as `&line[0 .. min(size.width - at.x, data.len())]`, which panics
when the slice end exceeds the first line's length; otherwise queue
`MoveTo(at)` and `Print` of the slice.  `size.width - at.x` cannot
underflow because `at.x ≤ size.width` holds on this path. -/
def write_styled (size : Size) (pos : XY) (data : List Char) : WriteResult :=
  if data = [] then .nothing
  else if size.height < pos.y then .nothing
  else if size.width < pos.x then .nothing
  else if min (size.width - pos.x) data.length ≤ (firstLine data).length then
    .emit pos ((firstLine data).take (min (size.width - pos.x) data.length))
  else .panicked

/-- The mutable state of a `BufDrawSurface` (`src/surface.rs`): the
region bookkeeping fields `top_left` and `size`, plus `out`, the sequence
of `(position, text)` writes queued into the buffered writer (standing
for the `buf` field, whose only observable content is what was queued). -/
structure BufSurf where
  top_left : XY
  size : Size
  out : List (XY × List Char)
deriving DecidableEq

/-- Outcome of running the closure `f` passed to `shrink`: either `f`
returns normally with the surface in state `s`, or `f` panics while the
surface is in state `s` (the state observed during unwinding). -/
inductive FOutcome where
  | ok (s : BufSurf)
  | panicked (s : BufSurf)
deriving DecidableEq

/-- `BufDrawSurface::shrink` (`src/surface.rs`).  In source order: save
`top_left` and `size`; two `debug_assert!`s (both panic with the state
unchanged, modelled as one conjunction since each failing assert leaves
the same state); set `top_left := top_left + tl` and `size := sz`; run
`f`; then restore the saved fields with two plain assignments.  The
restore assignments execute only when `f` returns normally — a panic in
`f` unwinds past them, so a `panicked` outcome keeps whatever state `f`
left behind. -/
def shrink (tl : XY) (sz : Size) (f : BufSurf → FOutcome) (s : BufSurf) : FOutcome :=
  if (tl.x < s.size.width ∧ tl.y < s.size.height)
      ∧ (s.top_left.x + tl.x + sz.width ≤ s.top_left.x + s.size.width
        ∧ s.top_left.y + tl.y + sz.height ≤ s.top_left.y + s.size.height) then
    match f { s with top_left := s.top_left.add tl, size := sz } with
    | .ok s2 => .ok { s2 with top_left := s.top_left, size := s.size }
    | .panicked s2 => .panicked s2
  else .panicked s

/-- The `debug_assert!(surface_size >= size, ...)` guard of
`DrawSurface::shrink_centered` (`src/surface.rs`): `>=` is the
`PartialOrd for Size` comparison, i.e. an area comparison. -/
def shrink_centered_assert_passes (surface_size size : Size) : Bool :=
  Size.ge surface_size size

/-- The arguments `(top_left, size)` that `DrawSurface::shrink_centered`
(`src/surface.rs`) passes to `shrink`: after the `debug_assert!` above,
`x_offset = (W - w) / 2` and `y_offset = (H - h) / 2` with `u16`
subtraction and division.  `none` models a debug-build panic: either the
assert fails, or (when the assert passes but the requested size exceeds
the surface on an axis) the `u16` subtraction underflows, which panics in
a debug build before `shrink` is reached. -/
def shrink_centered_args (surface_size size : Size) : Option (XY × Size) :=
  if shrink_centered_assert_passes surface_size size = false then none
  else if size.width ≤ surface_size.width ∧ size.height ≤ surface_size.height then
    some (⟨(surface_size.width - size.width) / 2,
           (surface_size.height - size.height) / 2⟩, size)
  else none

/-- Helper for `textwrap_wrap`: greedy first-fit filling.  `cur` is the
line being filled; a following word is appended (with one separating
space) when the line stays within `width`, and otherwise starts a new
line. -/
def greedyWrapGo (width : Nat) : List (List Char) → List Char → List (List Char)
  | [], cur => [cur]
  | w :: ws, cur =>
    if cur.length + 1 + w.length ≤ width then greedyWrapGo width ws (cur ++ ' ' :: w)
    else cur :: greedyWrapGo width ws w

/-- Models the external `textwrap::wrap(text, width)` call used by
`Text::layout` (`src/components/text.rs`) and `get_text_size`, on the
inputs this development evaluates it at: single-space-separated ASCII
words, each no longer than `width`.  On such inputs the crate's default
optimal-fit algorithm coincides with greedy first-fit filling, embedded
here.  (Word breaking for over-long words and newline handling are never
reached by the inputs below.) -/
def textwrap_wrap (text : List Char) (width : Nat) : List (List Char) :=
  match (text.splitOn ' ').filter (fun w => w ≠ []) with
  | [] => [[]]
  | w :: ws => greedyWrapGo width ws w

/-- Result of `Text::layout` (`src/components/text.rs`): the
`wrapped_text` field it stores and the `Size` it stores and returns. -/
structure TextLayoutResult where
  wrapped_text : List (List Char)
  size : Size
deriving DecidableEq

/-- `Text::layout` (`src/components/text.rs`): wrap the text to
`limits.max_width`; `width` is the fold computing the longest wrapped
line's length (`cur.len() as u16` is exact for the short lines below);
`height` is the wrapped line count clamped into
`[limits.min_height, limits.max_height]` by the two nested `if`s.  Note
the width is NOT clamped against `min_width` or `max_width`. -/
def Text.layout (text : List Char) (limits : Limits) : TextLayoutResult :=
  let wrapped_text := textwrap_wrap text limits.max_width
  let width := wrapped_text.foldl
    (fun acc cur => if acc < cur.length then cur.length else acc) 0
  let height :=
    if wrapped_text.length ≤ limits.max_height then
      if limits.min_height ≤ wrapped_text.length then wrapped_text.length
      else limits.min_height
    else limits.max_height
  ⟨wrapped_text, ⟨width, height⟩⟩

/-- `get_text_size` (`src/components/text.rs`): wrap the text to
`limits.max_width`; if the wrapped line count fits under `max_height`,
return `(max_width, line_count)`, else `limits.max_size()`. -/
def get_text_size (limits : Limits) (text : List Char) : Size :=
  let wrapped_text := textwrap_wrap text limits.max_width
  let height := wrapped_text.length
  if height ≤ limits.max_height then ⟨limits.max_width, height⟩
  else limits.max_size

/-- The child limits `Center::layout` constructs
(`src/components/Center.rs`): `Limits { min_width: 0, min_height: 0,
..limits }`. -/
def Center.child_limits (limits : Limits) : Limits :=
  { limits with min_width := 0, min_height := 0 }

/-- `Center::<WithChild>::layout` (`src/components/Center.rs`), with the
child's `layout` abstracted as a function `child : Limits → Size` (the
child is an arbitrary `View` behind a lock; only its `layout` result
matters here).  Returns the pair (size reported by `Center`, the
`child_size` recorded in the `self.child_size` field). -/
def Center.layout (child : Limits → Size) (limits : Limits) : Size × Size :=
  let child_size := child (Center.child_limits limits)
  (limits.max_size, child_size)

/-- The characters of `"Hello"`. -/
def helloUpper : List Char := ['H', 'e', 'l', 'l', 'o']

/-- The characters of `"Hello there"`. -/
def helloThere : List Char := ['H', 'e', 'l', 'l', 'o', ' ', 't', 'h', 'e', 'r', 'e']

/-- The characters of `"Hi"`. -/
def hiUpper : List Char := ['H', 'i']

/-- The characters of `"hello"`. -/
def helloLower : List Char := ['h', 'e', 'l', 'l', 'o']

/-- The characters of `"hi\nthere"`. -/
def hiNlThere : List Char := ['h', 'i', '\n', 't', 'h', 'e', 'r', 'e']

/-- `Size.le` decides the area comparison `a.linear_length ≤ b.linear_length`. -/
theorem size_le_eq (a b : Size) :
    Size.le a b = decide (a.linear_length ≤ b.linear_length) := by
  unfold Size.le cmpNat
  split_ifs with h1 h2 <;> simp <;> omega

/-- `Size.ge` decides the reversed area comparison. -/
theorem size_ge_eq (a b : Size) :
    Size.ge a b = decide (b.linear_length ≤ a.linear_length) := by
  unfold Size.ge cmpNat
  split_ifs with h1 h2 <;> simp <;> omega

/-- Claim C1, refuted at a failing input: `Text::layout` of `"Hi"` under
the strict 10×10 limits (the very limits the render driver builds from a
10×10 terminal) returns size `(2, 10)` — the width is the longest wrapped
line, never raised to `min_width` — and `is_size_within_limits` rejects
that size, so the claimed universal in-limits property fails and the
code's own `debug_assert_size_within_limits` panics on this input. -/
theorem c1_text_layout_escapes_limits :
    (Text.layout hiUpper (Limits.strict 10 10)).size = ⟨2, 10⟩
      ∧ (Limits.strict 10 10).is_size_within_limits ⟨2, 10⟩ = false :=
  ⟨rfl, rfl⟩

/-- Claim C2, counterexample: under `Limits {min 0/0, max 2/2}` the size
`(4, 1)` has width 4 exceeding `max_width` 2, yet the source
`is_size_within_limits` accepts it (areas: 4 ≤ 4), while the claimed
componentwise check rejects it — the claim's iff is false here. -/
theorem c2_componentwise_cex :
    Limits.is_size_within_limits ⟨0, 2, 0, 2⟩ ⟨4, 1⟩ = true
      ∧ Limits.is_size_within_limits_componentwise ⟨0, 2, 0, 2⟩ ⟨4, 1⟩ = false :=
  ⟨rfl, rfl⟩

/-- Claim C2 as amended: `is_size_within_limits` is the area comparison —
it returns true iff the size's area is at most the max size's area and at
least the min size's area. -/
theorem c2_is_size_within_limits_area (l : Limits) (s : Size) :
    l.is_size_within_limits s = true
      ↔ (s.linear_length ≤ (Limits.max_size l).linear_length
          ∧ (Limits.min_size l).linear_length ≤ s.linear_length) := by
  unfold Limits.is_size_within_limits
  rw [size_ge_eq, size_le_eq]
  simp

/-- Claim C3, counterexample: `Text::layout` of `"Hello"` under
`Limits {min 0, max 10×10}` returns `(5, 1)` (the longest wrapped line),
not the claimed `(10, 1)`. -/
theorem c3_text_layout_width_cex :
    (Text.layout helloUpper ⟨0, 10, 0, 10⟩).size = ⟨5, 1⟩
      ∧ (Text.layout helloUpper ⟨0, 10, 0, 10⟩).size ≠ ⟨10, 1⟩ :=
  ⟨rfl, by decide⟩

/-- Claim C3 as amended: the spec's example sizes `(10,1)`, `(10,2)`,
`(10,1)` are produced by the helper `get_text_size`, which pins the width
to `max_width`; the `Text` widget's `layout` method instead reports the
longest wrapped line as width, giving `(5,1)`, `(5,2)`, `(5,1)` on the
same inputs (with the same heights, the last keeping one line). -/
theorem c3_get_text_size_examples :
    get_text_size ⟨0, 10, 0, 10⟩ helloUpper = ⟨10, 1⟩
      ∧ get_text_size ⟨0, 10, 0, 10⟩ helloThere = ⟨10, 2⟩
      ∧ get_text_size ⟨0, 10, 0, 1⟩ helloThere = ⟨10, 1⟩
      ∧ (Text.layout helloUpper ⟨0, 10, 0, 10⟩).size = ⟨5, 1⟩
      ∧ (Text.layout helloThere ⟨0, 10, 0, 10⟩).size = ⟨5, 2⟩
      ∧ (Text.layout helloThere ⟨0, 10, 0, 1⟩).size = ⟨5, 1⟩ :=
  ⟨rfl, rfl, rfl, rfl, rfl, rfl⟩

/-- Claim C4, counterexample: on a surface of height 1, a write at row
`y = 1` has `at.y ≥ height` (row 1 is outside a 1-row surface), yet
`write_styled` emits it — the guard in the source is `at.y > height`,
not `at.y ≥ height`. -/
theorem c4_row_at_height_emits_cex :
    (⟨5, 1⟩ : Size).height ≤ (⟨0, 1⟩ : XY).y
      ∧ write_styled ⟨5, 1⟩ ⟨0, 1⟩ ['x'] = WriteResult.emit ⟨0, 1⟩ ['x'] := by
  decide

/-- Claim C4 as amended: writes whose row satisfies `at.y > height`
(strictly greater — one past the row just outside the surface) are
dropped entirely, and whenever `write_styled` emits anything it emits at
the requested position, at a row `at.y ≤ height`, exactly the first line
of the data truncated to `min(width - at.x, |data|)` characters, ending
at or before the surface's right edge. -/
theorem c4_write_clips_first_line (size : Size) (pos : XY) (data : List Char) :
    (size.height < pos.y → write_styled size pos data = WriteResult.nothing)
      ∧ (∀ p s, write_styled size pos data = WriteResult.emit p s →
          p = pos ∧ pos.y ≤ size.height
            ∧ s = (firstLine data).take (min (size.width - pos.x) data.length)
            ∧ pos.x + s.length ≤ size.width) := by
  constructor
  · intro h
    unfold write_styled
    split_ifs <;> rfl
  · intro p s hps
    unfold write_styled at hps
    split_ifs at hps with h1 h2 h3 h4
    injection hps with hp hs
    refine ⟨hp.symm, by omega, hs.symm, ?_⟩
    rw [← hs, List.length_take]
    omega

/-- Witness for `c4_write_clips_first_line`: a write at row 6 of a
height-5 surface is dropped, and writing `"hello"` at the origin of a
width-2 surface emits exactly `"he"`. -/
theorem c4_write_clips_first_line_w :
    write_styled ⟨5, 5⟩ ⟨0, 6⟩ helloLower = WriteResult.nothing
      ∧ ((⟨0, 0⟩ : XY) = ⟨0, 0⟩ ∧ (0 : Nat) ≤ 1
          ∧ (['h', 'e'] : List Char)
              = (firstLine helloLower).take (min ((2 : Nat) - 0) helloLower.length)
          ∧ (0 : Nat) + (['h', 'e'] : List Char).length ≤ 2) :=
  ⟨(c4_write_clips_first_line ⟨5, 5⟩ ⟨0, 6⟩ helloLower).1 (by decide),
   (c4_write_clips_first_line ⟨2, 1⟩ ⟨0, 0⟩ helloLower).2 ⟨0, 0⟩ ['h', 'e'] (by decide)⟩

/-- Claim C5: for any requested size fitting the surface on both axes,
`shrink_centered` passes `shrink` the top-left offset
`((W - w) / 2, (H - h) / 2)` (floor division) and the requested size. -/
theorem c5_shrink_centered_offsets (W H w h : Nat) (hw : w ≤ W) (hh : h ≤ H) :
    shrink_centered_args ⟨W, H⟩ ⟨w, h⟩
      = some (⟨(W - w) / 2, (H - h) / 2⟩, ⟨w, h⟩) := by
  have ht : shrink_centered_assert_passes ⟨W, H⟩ ⟨w, h⟩ = true := by
    unfold shrink_centered_assert_passes
    rw [size_ge_eq]
    simpa [Size.linear_length] using Nat.mul_le_mul hw hh
  unfold shrink_centered_args
  rw [ht, if_neg (by simp), if_pos ⟨hw, hh⟩]

/-- Witness for `c5_shrink_centered_offsets`: the spec's example — a
(7,1) surface with a (5,1) child yields offset (1,0). -/
theorem c5_shrink_centered_offsets_w :
    shrink_centered_args ⟨7, 1⟩ ⟨5, 1⟩ = some (⟨1, 0⟩, ⟨5, 1⟩) :=
  c5_shrink_centered_offsets 7 1 5 1 (by decide) (by decide)

/-- Claim C6, counterexample: requesting size `(4, 1)` on a `(2, 2)`
region exceeds the region's width, yet the `debug_assert!` of
`shrink_centered` passes, because it compares areas (4 ≤ 4) rather than
axes — the claimed per-axis rejection is false. -/
theorem c6_assert_area_cex :
    (⟨2, 2⟩ : Size).width < (⟨4, 1⟩ : Size).width
      ∧ shrink_centered_assert_passes ⟨2, 2⟩ ⟨4, 1⟩ = true := by
  decide

/-- Claim C6 as amended: `shrink_centered`'s debug assertion fails
exactly when the current region's area is strictly smaller than the
requested size's area — an area comparison, not a per-axis one. -/
theorem c6_assert_is_area_check (surface_size size : Size) :
    shrink_centered_assert_passes surface_size size = false
      ↔ surface_size.linear_length < size.linear_length := by
  unfold shrink_centered_assert_passes
  rw [size_ge_eq]
  simp

/-- Claim C7, counterexample: an in-bounds `shrink` of a `(10, 10)`
surface to `(2, 2)` at `(1, 1)` whose closure panics leaves the surface
with the NARROWED region (`top_left (1,1)`, `size (2,2)`) — the restore
assignments run only after `f` returns, so the original region is not
restored when `f` fails partway. -/
theorem c7_no_restore_on_failure_cex :
    shrink ⟨1, 1⟩ ⟨2, 2⟩ (fun s1 => FOutcome.panicked s1) ⟨⟨0, 0⟩, ⟨10, 10⟩, []⟩
      = FOutcome.panicked ⟨⟨1, 1⟩, ⟨2, 2⟩, []⟩
    ∧ (⟨2, 2⟩ : Size) ≠ ⟨10, 10⟩ :=
  ⟨rfl, by decide⟩

/-- Claim C7 as amended: for every in-bounds `shrink` whose closure `f`
returns normally, the surface afterwards has its original `top_left` and
`size`, and all other state (the queued output) is exactly what `f`
produced; the guarantee does not extend to a panicking `f`. -/
theorem c7_shrink_restores (tl : XY) (sz : Size) (f : BufSurf → FOutcome)
    (s : BufSurf)
    (h1 : tl.x < s.size.width) (h2 : tl.y < s.size.height)
    (h3 : s.top_left.x + tl.x + sz.width ≤ s.top_left.x + s.size.width)
    (h4 : s.top_left.y + tl.y + sz.height ≤ s.top_left.y + s.size.height)
    (s2 : BufSurf)
    (hf : f { s with top_left := s.top_left.add tl, size := sz } = FOutcome.ok s2) :
    shrink tl sz f s = FOutcome.ok ⟨s.top_left, s.size, s2.out⟩ := by
  unfold shrink
  rw [if_pos ⟨⟨h1, h2⟩, h3, h4⟩, hf]

/-- Witness for `c7_shrink_restores`: an identity closure on a `(10,10)`
surface shrunk to `(2,2)` at `(1,1)` leaves the region restored. -/
theorem c7_shrink_restores_w :
    shrink ⟨1, 1⟩ ⟨2, 2⟩ (fun s1 => FOutcome.ok s1) ⟨⟨0, 0⟩, ⟨10, 10⟩, []⟩
      = FOutcome.ok ⟨⟨0, 0⟩, ⟨10, 10⟩, []⟩ :=
  c7_shrink_restores ⟨1, 1⟩ ⟨2, 2⟩ (fun s1 => FOutcome.ok s1)
    ⟨⟨0, 0⟩, ⟨10, 10⟩, []⟩ (by decide) (by decide) (by decide) (by decide)
    ⟨⟨1, 1⟩, ⟨2, 2⟩, []⟩ rfl

/-- Claim C8: for every limits value and every child, `Center::layout`
passes the child exactly `{min_width 0, min_height 0, max = parent max}`,
records the child's reported size unchanged, and itself returns
`limits.max_size()` — independent of the child's answer. -/
theorem c8_center_layout (limits : Limits) (child : Limits → Size) :
    Center.child_limits limits = ⟨0, limits.max_width, 0, limits.max_height⟩
      ∧ Center.layout child limits
          = (limits.max_size, child ⟨0, limits.max_width, 0, limits.max_height⟩) :=
  ⟨rfl, rfl⟩

/-- Claim C9: the `Ord for Size` implementation's `cmp` never returns —
its body is the recursive call itself on unchanged arguments, so no
finite number of unfoldings produces a result, for any pair of sizes. -/
theorem c9_size_ord_cmp_diverges :
    ∀ (fuel : Nat) (a b : Size), Size.cmpFuel fuel a b = none := by
  intro fuel
  induction fuel with
  | zero => intro a b; rfl
  | succ n ih => intro a b; exact ih a b

/-- Claim C10: for every in-bounds write whose data's first line is
shorter than `min(width - at.x, |data|)`, the slice taken in
`write_styled` is out of range and the operation panics instead of
emitting the clipped first line. -/
theorem c10_write_panics_on_short_first_line (size : Size) (pos : XY)
    (data : List Char) (hne : data ≠ [])
    (hy : pos.y ≤ size.height) (hx : pos.x ≤ size.width)
    (hshort : (firstLine data).length < min (size.width - pos.x) data.length) :
    write_styled size pos data = WriteResult.panicked := by
  unfold write_styled
  rw [if_neg hne, if_neg (by omega), if_neg (by omega), if_neg (by omega)]

/-- Witness for `c10_write_panics_on_short_first_line`: writing
`"hi\nthere"` at the origin of a width-10 surface panics (first line
`"hi"` has 2 characters, the slice wants `min(10, 8) = 8`). -/
theorem c10_write_panics_on_short_first_line_w :
    write_styled ⟨10, 1⟩ ⟨0, 0⟩ hiNlThere = WriteResult.panicked :=
  c10_write_panics_on_short_first_line ⟨10, 1⟩ ⟨0, 0⟩ hiNlThere
    (by decide) (by decide) (by decide) (by decide)

end LeptosTui
